import Mathlib

/-!
Shallow embedding of the "anota" note-taking backend: the data model of
`src/shared/schema.ts`, the storage layer of `src/server/storage.ts`, the
route handlers of the Express routing module, and the client's
mark-completed mutation from `src/client/src/pages/dashboard.tsx`.
Password hashing (bcryptjs) and zod's email format check are abstracted
as function parameters, since their internals live outside this
repository; everything else is translated directly from the source.
-/

set_option maxHeartbeats 1000000

namespace Anota

/-- The two enum values of the `status` column of the `notes` table in
`src/shared/schema.ts`: "A Fazer" (to-do) and "Concluída" (done). -/
inductive NoteStatus where
  | aFazer
  | concluida
deriving DecidableEq, Repr

/-- A row of the `users` table (`src/shared/schema.ts`): numeric id,
display name, email, and the stored password text (a hash after
registration). -/
structure User where
  id : Nat
  name : String
  email : String
  password : String
deriving DecidableEq, Repr

/-- A row of the `notes` table (`src/shared/schema.ts`). -/
structure Note where
  id : Nat
  userId : Nat
  title : String
  createdDate : String
  completedDate : String
  status : NoteStatus
deriving DecidableEq, Repr

/-- The relational store behind `DatabaseStorage` (`src/server/storage.ts`):
the two tables plus the identity counters that assign fresh primary keys. -/
structure DB where
  users : List User
  notes : List Note
  nextUserId : Nat
  nextNoteId : Nat
deriving DecidableEq, Repr

/-- The value produced by `insertUserSchema.parse`. -/
structure InsertUser where
  name : String
  email : String
  password : String
deriving DecidableEq, Repr

/-- JSON body of a register request; each field may be absent. -/
structure UserBody where
  name : Option String
  email : Option String
  password : Option String
deriving DecidableEq, Repr

/-- JSON body of a login request. -/
structure LoginBody where
  email : Option String
  password : Option String
deriving DecidableEq, Repr

/-- The value produced by `loginSchema.parse`. -/
structure LoginUser where
  email : String
  password : String
deriving DecidableEq, Repr

/-- JSON body of a create/update-note request.  The `userId` and `id`
fields model extra keys a client may send; `insertNoteSchema` omits both,
so zod strips them during parsing. -/
structure NoteBody where
  title : Option String
  createdDate : Option String
  completedDate : Option String
  status : Option String
  userId : Option Nat
  id : Option Nat
deriving DecidableEq, Repr

/-- The value produced by `insertNoteSchema.parse`: no id, no userId. -/
structure InsertNote where
  title : String
  createdDate : String
  completedDate : String
  status : NoteStatus
deriving DecidableEq, Repr

/-- The value produced by `insertNoteSchema.partial().parse` in the PUT
handler: every field optional, each validated when present; again no id
and no userId. -/
structure NoteUpdate where
  title : Option String
  createdDate : Option String
  completedDate : Option String
  status : Option NoteStatus
deriving DecidableEq, Repr

/-- `z.enum(["A Fazer", "Concluída"])` from `insertNoteSchema`. -/
def parseStatus (s : String) : Option NoteStatus :=
  if s = "A Fazer" then some .aFazer
  else if s = "Concluída" then some .concluida
  else none

/-- One zod field check: the field must be present and satisfy its
refinement; otherwise the field name is reported as the offending key. -/
def checkField (field : String) (ok : String → Bool) (x : Option String) :
    Except String String :=
  match x with
  | none => .error field
  | some v => if ok v then .ok v else .error field

/-- One optional zod field check, as produced by `.partial()`: an absent
field is fine, a present one must satisfy its refinement. -/
def checkOptField (field : String) (ok : String → Bool) (x : Option String) :
    Except String (Option String) :=
  match x with
  | none => .ok none
  | some v => if ok v then .ok (some v) else .error field

/-- The issue list contributed by one field check. -/
def issueOf {α : Type} : Except String α → List String
  | .error f => [f]
  | .ok _ => []

/-- `insertUserSchema.parse` (`src/shared/schema.ts` lines 33-37):
name at least 1 character, email well-formed (zod `email()`, abstracted
as the parameter `emailOk`), password at least 6 characters.  On failure
the offending field names are reported, one issue per failing key, as
zod collects them. -/
def parseInsertUser (emailOk : String → Bool) (b : UserBody) :
    Except (List String) InsertUser :=
  let rn := checkField "name" (fun n => n.length ≥ 1) b.name
  let re := checkField "email" emailOk b.email
  let rp := checkField "password" (fun p => p.length ≥ 6) b.password
  match rn, re, rp with
  | .ok n, .ok e, .ok p => .ok { name := n, email := e, password := p }
  | _, _, _ => .error (issueOf rn ++ issueOf re ++ issueOf rp)

/-- `loginSchema.parse` (`src/shared/schema.ts` lines 39-42): email
well-formed, password at least 1 character. -/
def parseLogin (emailOk : String → Bool) (b : LoginBody) :
    Except (List String) LoginUser :=
  let re := checkField "email" emailOk b.email
  let rp := checkField "password" (fun p => p.length ≥ 1) b.password
  match re, rp with
  | .ok e, .ok p => .ok { email := e, password := p }
  | _, _ => .error (issueOf re ++ issueOf rp)

/-- The status field check of `insertNoteSchema`. -/
def checkStatus (x : Option String) : Except String NoteStatus :=
  match x with
  | none => .error "status"
  | some s =>
    match parseStatus s with
    | some st => .ok st
    | none => .error "status"

/-- The optional status field check of `insertNoteSchema.partial()`. -/
def checkOptStatus (x : Option String) : Except String (Option NoteStatus) :=
  match x with
  | none => .ok none
  | some s =>
    match parseStatus s with
    | some st => .ok (some st)
    | none => .error "status"

/-- `insertNoteSchema.parse` (`src/shared/schema.ts` lines 44-49): title
at least 1 character, createdDate any string, completedDate at least 1
character, status one of the two enum values.  The `id` and `userId`
keys are omitted from the schema, so `b.id` and `b.userId` are ignored. -/
def parseInsertNote (b : NoteBody) : Except (List String) InsertNote :=
  let rt := checkField "title" (fun t => t.length ≥ 1) b.title
  let rc := checkField "createdDate" (fun _ => true) b.createdDate
  let rd := checkField "completedDate" (fun d => d.length ≥ 1) b.completedDate
  let rs := checkStatus b.status
  match rt, rc, rd, rs with
  | .ok t, .ok c, .ok d, .ok s =>
    .ok { title := t, createdDate := c, completedDate := d, status := s }
  | _, _, _, _ => .error (issueOf rt ++ issueOf rc ++ issueOf rd ++ issueOf rs)

/-- `insertNoteSchema.partial().parse` from the PUT handler: the same
field refinements, each applied only when the field is present. -/
def parseNoteUpdate (b : NoteBody) : Except (List String) NoteUpdate :=
  let rt := checkOptField "title" (fun t => t.length ≥ 1) b.title
  let rc := checkOptField "createdDate" (fun _ => true) b.createdDate
  let rd := checkOptField "completedDate" (fun d => d.length ≥ 1) b.completedDate
  let rs := checkOptStatus b.status
  match rt, rc, rd, rs with
  | .ok t, .ok c, .ok d, .ok s =>
    .ok { title := t, createdDate := c, completedDate := d, status := s }
  | _, _, _, _ => .error (issueOf rt ++ issueOf rc ++ issueOf rd ++ issueOf rs)

/-- The `WHERE id = ? AND user_id = ?` condition used by `updateNote` and
`deleteNote` in `src/server/storage.ts`. -/
def noteMatches (id userId : Nat) (n : Note) : Bool :=
  n.id == id && n.userId == userId

/-- `DatabaseStorage.getUser`: `SELECT * FROM users WHERE id = ?`,
first row or none. -/
def DB.getUser (db : DB) (id : Nat) : Option User :=
  db.users.find? (fun u => u.id == id)

/-- `DatabaseStorage.getUserByEmail`: `SELECT * FROM users WHERE email = ?`,
first row or none (exact, case-sensitive comparison). -/
def DB.getUserByEmail (db : DB) (email : String) : Option User :=
  db.users.find? (fun u => u.email == email)

/-- `DatabaseStorage.createUser`: insert with a generated id, returning
the new row. -/
def DB.createUser (db : DB) (iu : InsertUser) : User × DB :=
  let user : User :=
    { id := db.nextUserId, name := iu.name, email := iu.email,
      password := iu.password }
  (user, { db with users := db.users ++ [user], nextUserId := db.nextUserId + 1 })

/-- `DatabaseStorage.getNotesByUserId`:
`SELECT * FROM notes WHERE user_id = ?`. -/
def DB.getNotesByUserId (db : DB) (userId : Nat) : List Note :=
  db.notes.filter (fun n => n.userId == userId)

/-- `DatabaseStorage.createNote`: insert with a generated id, returning
the new row; the caller supplies the owner id.  This models the INSERT
at inputs the database accepts; the rejection the Postgres `date`
columns raise on a string they cannot parse is modeled at the handler
level by `createNoteHandlerPg`. -/
def DB.createNote (db : DB) (ins : InsertNote) (userId : Nat) : Note × DB :=
  let note : Note :=
    { id := db.nextNoteId, userId := userId, title := ins.title,
      createdDate := ins.createdDate, completedDate := ins.completedDate,
      status := ins.status }
  (note, { db with notes := db.notes ++ [note], nextNoteId := db.nextNoteId + 1 })

/-- The `SET` clause of `updateNote`: the supplied fields overwrite the
row's; `Partial<InsertNote>` has no `id` or `userId` key, so those two
columns are never touched. -/
def applyUpdate (u : NoteUpdate) (n : Note) : Note :=
  { n with
    title := u.title.getD n.title
    createdDate := u.createdDate.getD n.createdDate
    completedDate := u.completedDate.getD n.completedDate
    status := u.status.getD n.status }

/-- `DatabaseStorage.updateNote`:
`UPDATE notes SET ... WHERE id = ? AND user_id = ? RETURNING *`; the
code takes the first returned row, or undefined when no row matched.
This models the UPDATE at inputs the database accepts (the theorems
using it are instantiated at such inputs); a SET binding a string the
Postgres `date` columns cannot parse would raise in the real store and
surface as a 500 from the route's catch block. -/
def DB.updateNote (db : DB) (id userId : Nat) (u : NoteUpdate) :
    Option Note × DB :=
  let returned := (db.notes.find? (noteMatches id userId)).map (applyUpdate u)
  let notes' := db.notes.map
    (fun n => if noteMatches id userId n then applyUpdate u n else n)
  (returned, { db with notes := notes' })

/-- `DatabaseStorage.deleteNote`:
`DELETE FROM notes WHERE id = ? AND user_id = ?`, reporting whether the
row count of deleted rows is positive. -/
def DB.deleteNote (db : DB) (id userId : Nat) : Bool × DB :=
  let rowCount := db.notes.countP (noteMatches id userId)
  (decide (0 < rowCount),
   { db with notes := db.notes.filter (fun n => !(noteMatches id userId n)) })

/-- The public profile shape every successful auth response carries:
`id`, `name`, `email` and nothing else. -/
structure PublicUser where
  id : Nat
  name : String
  email : String
deriving DecidableEq, Repr

/-- The projection the handlers apply before responding with a user. -/
def publicOf (u : User) : PublicUser :=
  { id := u.id, name := u.name, email := u.email }

/-- The error responses of the routing module, by HTTP status class:
zod validation failures (400, listing the offending fields), the fixed
400 of a duplicate email, 401, 404, and 500. -/
inductive ApiError where
  | validation (fields : List String)
  | badRequest (message : String)
  | unauthorized (message : String)
  | notFound (message : String)
  | internal (message : String)
deriving DecidableEq, Repr

/-- The HTTP status code each error response is sent with. -/
def ApiError.status : ApiError → Nat
  | .validation _ => 400
  | .badRequest _ => 400
  | .unauthorized _ => 401
  | .notFound _ => 404
  | .internal _ => 500

/-- The server state one request sees: the store plus the session's
`userId` slot (`req.session.userId`, absent when unauthenticated). -/
structure SrvState where
  db : DB
  session : Option Nat
deriving DecidableEq, Repr

/-- The `requireAuth` middleware: `if (!req.session.userId)` answer 401
"Não autorizado"; an absent value and the JavaScript-falsy `0` are both
rejected, anything else is passed on to the handler body. -/
def withAuth {α : Type} (st : SrvState)
    (k : Nat → Except ApiError α × SrvState) : Except ApiError α × SrvState :=
  match st.session with
  | some uid =>
    if uid = 0 then (.error (.unauthorized "Não autorizado"), st) else k uid
  | none => (.error (.unauthorized "Não autorizado"), st)

/-- `POST /api/auth/register`: parse with `insertUserSchema`, reject a
duplicate email, hash the password (bcryptjs, abstracted as `hash`),
insert the user, set the session, and answer with the public profile. -/
def registerHandler (emailOk : String → Bool) (hash : String → String)
    (st : SrvState) (b : UserBody) : Except ApiError PublicUser × SrvState :=
  match parseInsertUser emailOk b with
  | .error fs => (.error (.validation fs), st)
  | .ok iu =>
    match st.db.getUserByEmail iu.email with
    | some _ => (.error (.badRequest "Email já está em uso"), st)
    | none =>
      let created := st.db.createUser { iu with password := hash iu.password }
      (.ok (publicOf created.1), { db := created.2, session := some created.1.id })

/-- `POST /api/auth/login`: parse with `loginSchema`, look the user up by
email, compare the password against the stored hash (`bcrypt.compare`,
abstracted as `compare`), set the session and answer with the public
profile; both failure paths answer 401 "Email ou senha inválidos". -/
def loginHandler (emailOk : String → Bool) (compare : String → String → Bool)
    (st : SrvState) (b : LoginBody) : Except ApiError PublicUser × SrvState :=
  match parseLogin emailOk b with
  | .error fs => (.error (.validation fs), st)
  | .ok l =>
    match st.db.getUserByEmail l.email with
    | none => (.error (.unauthorized "Email ou senha inválidos"), st)
    | some user =>
      if compare l.password user.password then
        (.ok (publicOf user), { st with session := some user.id })
      else
        (.error (.unauthorized "Email ou senha inválidos"), st)

/-- `GET /api/auth/me`: behind `requireAuth`; 404 when the session's user
no longer exists, otherwise the public profile. -/
def meHandler (st : SrvState) : Except ApiError PublicUser × SrvState :=
  withAuth st fun uid =>
    match st.db.getUser uid with
    | none => (.error (.notFound "Usuário não encontrado"), st)
    | some u => (.ok (publicOf u), st)

/-- `GET /api/notes`: behind `requireAuth`; the session user's notes. -/
def getNotesHandler (st : SrvState) : Except ApiError (List Note) × SrvState :=
  withAuth st fun uid => (.ok (st.db.getNotesByUserId uid), st)

/-- `POST /api/notes`: behind `requireAuth`; parse with
`insertNoteSchema`, then insert with the owner taken from the session. -/
def createNoteHandler (st : SrvState) (b : NoteBody) :
    Except ApiError Note × SrvState :=
  withAuth st fun uid =>
    match parseInsertNote b with
    | .error fs => (.error (.validation fs), st)
    | .ok ins =>
      let created := st.db.createNote ins uid
      (.ok created.1, { st with db := created.2 })

/-- `POST /api/notes` including the storage failure path: the
`created_date` and `completed_date` columns declared in
`src/shared/schema.ts` have the Postgres `date` type, so the INSERT
raises when the database cannot parse one of the two submitted strings
as a date, and the handler's catch block answers 500
"Erro ao criar anotação" with nothing persisted.  Which strings the
database accepts is external to this repository (it is the database's
date-input parser) and is abstracted as the parameter `pgDateOk`, like
bcrypt and zod's email format. -/
def createNoteHandlerPg (pgDateOk : String → Bool) (st : SrvState)
    (b : NoteBody) : Except ApiError Note × SrvState :=
  withAuth st fun uid =>
    match parseInsertNote b with
    | .error fs => (.error (.validation fs), st)
    | .ok ins =>
      if pgDateOk ins.createdDate && pgDateOk ins.completedDate then
        let created := st.db.createNote ins uid
        (.ok created.1, { st with db := created.2 })
      else (.error (.internal "Erro ao criar anotação"), st)

/-- `PUT /api/notes/:id`: behind `requireAuth`; parse with
`insertNoteSchema.partial()`, then update the row matching both the id
and the session user; 404 "Anotação não encontrada" when no row matched
(and then the store is unchanged, since the UPDATE touched no row). -/
def putNoteHandler (st : SrvState) (noteId : Nat) (b : NoteBody) :
    Except ApiError Note × SrvState :=
  withAuth st fun uid =>
    match parseNoteUpdate b with
    | .error fs => (.error (.validation fs), st)
    | .ok u =>
      match st.db.updateNote noteId uid u with
      | (none, _) => (.error (.notFound "Anotação não encontrada"), st)
      | (some note, db') => (.ok note, { st with db := db' })

/-- `DELETE /api/notes/:id`: behind `requireAuth`; delete the row
matching both the id and the session user; 404 when nothing was deleted
(and then the store is unchanged, since the DELETE removed no row). -/
def deleteNoteHandler (st : SrvState) (noteId : Nat) :
    Except ApiError String × SrvState :=
  withAuth st fun uid =>
    let del := st.db.deleteNote noteId uid
    if del.1 then (.ok "Anotação excluída com sucesso", { st with db := del.2 })
    else (.error (.notFound "Anotação não encontrada"), st)

/-- The body sent by `markCompletedMutation` in
`src/client/src/pages/dashboard.tsx`: status "Concluída" and
completedDate set to today's date. -/
def markCompletedBody (today : String) : NoteBody :=
  { title := none, createdDate := none, completedDate := some today,
    status := some "Concluída", userId := none, id := none }

/-- `MarkCompleted` as the client performs it: a PUT of
`markCompletedBody` to the note's id. -/
def markCompleted (st : SrvState) (noteId : Nat) (today : String) :
    Except ApiError Note × SrvState :=
  putNoteHandler st noteId (markCompletedBody today)

/-- Gregorian leap year. -/
def isLeapYear (y : Nat) : Bool :=
  (y % 4 == 0 && y % 100 != 0) || y % 400 == 0

/-- Number of days of month `m` in year `y`. -/
def daysInMonth (y m : Nat) : Nat :=
  if m = 2 then (if isLeapYear y then 29 else 28)
  else if m = 4 ∨ m = 6 ∨ m = 9 ∨ m = 11 then 30
  else 31

/-- Split a character list at each dash. -/
def splitDash : List Char → List (List Char)
  | [] => [[]]
  | c :: rest =>
    let r := splitDash rest
    if c = '-' then [] :: r
    else
      match r with
      | [] => [[c]]
      | g :: gs => (c :: g) :: gs

/-- Decimal value of a digit list. -/
def digitsVal (cs : List Char) : Nat :=
  cs.foldl (fun acc c => acc * 10 + (c.toNat - 48)) 0

/-- A well-formed calendar date in the sense of the spec: an ISO
`YYYY-MM-DD` string whose month and day denote a real calendar day.
This is the spec's notion, written for comparison with the code's
validation; `insertNoteSchema` itself performs no such check.  It also
serves as a concrete instantiation of the database's date acceptance
`pgDateOk` in counterexamples: at the strings tested there it agrees
with the Postgres date parser (both reject them). -/
def isCalendarDate (s : String) : Bool :=
  match splitDash s.data with
  | [ys, ms, ds] =>
    ys.length == 4 && ms.length == 2 && ds.length == 2 &&
    ys.all Char.isDigit && ms.all Char.isDigit && ds.all Char.isDigit &&
    (let y := digitsVal ys
     let m := digitsVal ms
     let d := digitsVal ds
     1 ≤ m && m ≤ 12 && 1 ≤ d && d ≤ daysInMonth y m)
  | _ => false

/-- A concrete note owned by user 1, used to instantiate theorems. -/
def note1 : Note :=
  { id := 1, userId := 1, title := "Pagar contas", createdDate := "2024-01-01",
    completedDate := "2024-01-01", status := NoteStatus.aFazer }

/-- A concrete store: one user, one note. -/
def db1 : DB :=
  { users := [{ id := 1, name := "Ana", email := "ana@x.com",
                password := "secret1#h" }],
    notes := [note1], nextUserId := 2, nextNoteId := 2 }

/-- A valid create-note body used to instantiate theorems; its `userId`
field models a client trying to plant an owner id. -/
def creBody : NoteBody :=
  { title := some "Pagar contas", createdDate := some "2024-01-01",
    completedDate := some "2024-01-01", status := some "A Fazer",
    userId := some 99, id := some 77 }

/-- A create body whose two date fields are not well-formed calendar
dates yet satisfy every check `insertNoteSchema` performs. -/
def badDateBody : NoteBody :=
  { title := some "Pagar contas", createdDate := some "not-a-date",
    completedDate := some "1234-99-99", status := some "A Fazer",
    userId := none, id := none }

/-! ## Storage-level lemmas -/

theorem noteMatches_iff {id uid : Nat} {n : Note} :
    noteMatches id uid n = true ↔ n.id = id ∧ n.userId = uid := by
  simp [noteMatches]

theorem find?_eq_some_unique {p : Note → Bool} {l : List Note} {n : Note}
    (hm : n ∈ l) (hp : p n = true) (hu : ∀ m ∈ l, p m = true → m = n) :
    l.find? p = some n := by
  cases hf : l.find? p with
  | none => exact absurd hp (by simpa using List.find?_eq_none.mp hf n hm)
  | some m =>
    rw [hu m (List.mem_of_find?_eq_some hf) (List.find?_some hf)]

theorem updateNote_miss {db : DB} {id uid : Nat} {u : NoteUpdate}
    (h : ∀ m ∈ db.notes, noteMatches id uid m = false) :
    db.updateNote id uid u = (none, db) := by
  unfold DB.updateNote
  have h1 : db.notes.find? (noteMatches id uid) = none :=
    List.find?_eq_none.mpr (fun m hm => by simp [h m hm])
  have h2 : db.notes.map
      (fun n => if noteMatches id uid n then applyUpdate u n else n) = db.notes := by
    rw [List.map_congr_left (g := fun n => n) (fun m hm => by simp [h m hm]),
      List.map_id']
  simp [h1, h2]

theorem deleteNote_miss {db : DB} {id uid : Nat}
    (h : ∀ m ∈ db.notes, noteMatches id uid m = false) :
    db.deleteNote id uid = (false, db) := by
  unfold DB.deleteNote
  have h1 : db.notes.countP (noteMatches id uid) = 0 :=
    List.countP_eq_zero.mpr (fun m hm => by simp [h m hm])
  have h2 : db.notes.filter (fun n => !(noteMatches id uid n)) = db.notes :=
    List.filter_eq_self.mpr (fun m hm => by simp [h m hm])
  simp [h1, h2]

/-! ## C1: update/delete by a non-owner fail with NotFound -/

/-- C1: for a note `n` and an authenticated caller `u` who is not its
owner, `updateNote` on `n.id` returns none and leaves the store
untouched, the PUT handler answers 404 with the state unchanged,
`deleteNote` returns false and leaves the store untouched, and the
DELETE handler answers 404 with the state unchanged. -/
theorem nonOwner_update_delete_notFound (st : SrvState) (n : Note) (u : Nat)
    (hs : st.session = some u) (hu : u ≠ 0)
    (_hn : n ∈ st.db.notes) (hown : n.userId ≠ u)
    (huniq : ∀ m ∈ st.db.notes, m.id = n.id → m = n)
    (b : NoteBody) (upd : NoteUpdate) (hb : parseNoteUpdate b = .ok upd) :
    (st.db.updateNote n.id u upd).1 = none ∧
    (st.db.updateNote n.id u upd).2 = st.db ∧
    putNoteHandler st n.id b = (.error (.notFound "Anotação não encontrada"), st) ∧
    (st.db.deleteNote n.id u).1 = false ∧
    (st.db.deleteNote n.id u).2 = st.db ∧
    deleteNoteHandler st n.id =
      (.error (.notFound "Anotação não encontrada"), st) ∧
    (ApiError.notFound "Anotação não encontrada").status = 404 := by
  have hmiss : ∀ m ∈ st.db.notes, noteMatches n.id u m = false := by
    intro m hm
    by_contra hc
    have hmt : noteMatches n.id u m = true := by
      cases h : noteMatches n.id u m with
      | false => exact absurd h hc
      | true => rfl
    obtain ⟨hid, huid⟩ := noteMatches_iff.mp hmt
    exact hown ((huniq m hm hid ▸ huid))
  have hupd := updateNote_miss (u := upd) hmiss
  have hdel := deleteNote_miss hmiss
  refine ⟨by simp [hupd], by simp [hupd], ?_, by simp [hdel], by simp [hdel], ?_, rfl⟩
  · simp [putNoteHandler, withAuth, hs, hu, hb, hupd]
  · simp [deleteNoteHandler, withAuth, hs, hu, hdel]

/-- Witness of C1 at a concrete input: user 2 attacks user 1's note. -/
theorem nonOwner_update_delete_notFound_witness :
    ((SrvState.mk db1 (some 2)).db.updateNote note1.id 2
        { title := none, createdDate := none,
          completedDate := some "2024-01-02",
          status := some NoteStatus.concluida }).1 = none ∧
    ((SrvState.mk db1 (some 2)).db.updateNote note1.id 2
        { title := none, createdDate := none,
          completedDate := some "2024-01-02",
          status := some NoteStatus.concluida }).2 = (SrvState.mk db1 (some 2)).db ∧
    putNoteHandler (SrvState.mk db1 (some 2)) note1.id
        (markCompletedBody "2024-01-02") =
      (.error (.notFound "Anotação não encontrada"), SrvState.mk db1 (some 2)) ∧
    ((SrvState.mk db1 (some 2)).db.deleteNote note1.id 2).1 = false ∧
    ((SrvState.mk db1 (some 2)).db.deleteNote note1.id 2).2 =
      (SrvState.mk db1 (some 2)).db ∧
    deleteNoteHandler (SrvState.mk db1 (some 2)) note1.id =
      (.error (.notFound "Anotação não encontrada"), SrvState.mk db1 (some 2)) ∧
    (ApiError.notFound "Anotação não encontrada").status = 404 :=
  nonOwner_update_delete_notFound (SrvState.mk db1 (some 2)) note1 2 rfl
    (by decide) (by decide) (by decide) (by decide)
    (markCompletedBody "2024-01-02")
    { title := none, createdDate := none, completedDate := some "2024-01-02",
      status := some NoteStatus.concluida }
    rfl

/-! ## C5: unauthenticated requests short-circuit -/

/-- C5: when the session holds no user id, every protected handler
(whoami, list, create, update, delete) answers 401 "Não autorizado" and
returns the state unchanged — users, notes and session untouched. -/
theorem unauthenticated_shortCircuits (st : SrvState) (h : st.session = none)
    (nb : NoteBody) (noteId : Nat) :
    meHandler st = (.error (.unauthorized "Não autorizado"), st) ∧
    getNotesHandler st = (.error (.unauthorized "Não autorizado"), st) ∧
    createNoteHandler st nb = (.error (.unauthorized "Não autorizado"), st) ∧
    putNoteHandler st noteId nb = (.error (.unauthorized "Não autorizado"), st) ∧
    deleteNoteHandler st noteId = (.error (.unauthorized "Não autorizado"), st) ∧
    (ApiError.unauthorized "Não autorizado").status = 401 := by
  simp [meHandler, getNotesHandler, createNoteHandler, putNoteHandler,
    deleteNoteHandler, withAuth, h, ApiError.status]

/-- Witness of C5 at a concrete state with an empty session. -/
theorem unauthenticated_shortCircuits_witness :
    meHandler (SrvState.mk db1 none) =
      (.error (.unauthorized "Não autorizado"), SrvState.mk db1 none) ∧
    getNotesHandler (SrvState.mk db1 none) =
      (.error (.unauthorized "Não autorizado"), SrvState.mk db1 none) ∧
    createNoteHandler (SrvState.mk db1 none) (markCompletedBody "2024-01-02") =
      (.error (.unauthorized "Não autorizado"), SrvState.mk db1 none) ∧
    putNoteHandler (SrvState.mk db1 none) 1 (markCompletedBody "2024-01-02") =
      (.error (.unauthorized "Não autorizado"), SrvState.mk db1 none) ∧
    deleteNoteHandler (SrvState.mk db1 none) 1 =
      (.error (.unauthorized "Não autorizado"), SrvState.mk db1 none) ∧
    (ApiError.unauthorized "Não autorizado").status = 401 :=
  unauthenticated_shortCircuits (SrvState.mk db1 none) rfl
    (markCompletedBody "2024-01-02") 1

/-! ## C3: the client cannot choose the owner of a created note -/

/-- C3: the create handler's outcome is identical whatever `userId` (or
`id`) the client puts in the body — validation strips both keys — and a
note it persists is owned by the session user `u` and stored. -/
theorem create_ignores_client_owner (st : SrvState) (b : NoteBody)
    (v w : Option Nat) (u : Nat) (note : Note) (st' : SrvState)
    (hs : st.session = some u) (hu : u ≠ 0)
    (hcr : createNoteHandler st b = (.ok note, st')) :
    createNoteHandler st { b with userId := v, id := w } =
      createNoteHandler st b ∧
    note.userId = u ∧ note ∈ st'.db.notes := by
  refine ⟨rfl, ?_⟩
  rw [createNoteHandler] at hcr
  simp only [withAuth, hs] at hcr
  rw [if_neg hu] at hcr
  cases hp : parseInsertNote b with
  | error fs => rw [hp] at hcr; simp at hcr
  | ok ins =>
    rw [hp] at hcr
    simp only [DB.createNote, Prod.mk.injEq, Except.ok.injEq] at hcr
    obtain ⟨h1, h2⟩ := hcr
    subst h1
    subst h2
    exact ⟨rfl, by simp⟩

/-- Witness of C3: creating with a planted `userId := 99` behaves exactly
like creating without it, and the stored note belongs to session user 1. -/
theorem create_ignores_client_owner_witness :
    createNoteHandler (SrvState.mk db1 (some 1))
        { creBody with userId := some 42, id := some 5 } =
      createNoteHandler (SrvState.mk db1 (some 1)) creBody ∧
    (Note.mk 2 1 "Pagar contas" "2024-01-01" "2024-01-01"
        NoteStatus.aFazer).userId = 1 ∧
    Note.mk 2 1 "Pagar contas" "2024-01-01" "2024-01-01" NoteStatus.aFazer ∈
      (SrvState.mk
        (DB.mk db1.users
          (db1.notes ++
            [Note.mk 2 1 "Pagar contas" "2024-01-01" "2024-01-01"
              NoteStatus.aFazer])
          db1.nextUserId 3)
        (some 1)).db.notes :=
  create_ignores_client_owner (SrvState.mk db1 (some 1)) creBody
    (some 42) (some 5) 1
    (Note.mk 2 1 "Pagar contas" "2024-01-01" "2024-01-01" NoteStatus.aFazer)
    (SrvState.mk
      (DB.mk db1.users
        (db1.notes ++
          [Note.mk 2 1 "Pagar contas" "2024-01-01" "2024-01-01"
            NoteStatus.aFazer])
        db1.nextUserId 3)
      (some 1))
    rfl (by decide) rfl

/-- The update statement preserves the (id, owner) pair of every row:
`Partial<InsertNote>` carries neither column. -/
theorem updateNote_ids (db : DB) (i w : Nat) (u : NoteUpdate) :
    ((db.updateNote i w u).2).notes.map (fun n => (n.id, n.userId)) =
      db.notes.map (fun n => (n.id, n.userId)) := by
  show (db.notes.map fun n =>
      if noteMatches i w n then applyUpdate u n else n).map _ = _
  rw [List.map_map]
  exact List.map_congr_left fun x _ => by
    by_cases hx : noteMatches i w x = true <;> simp [hx, applyUpdate]

/-! ## C10: note ownership is immutable -/

/-- C10: `applyUpdate` (the accepted field set of PUT) never changes a
row's `id` or `userId`; the PUT handler preserves the (id, owner) pairs
of the whole table whatever the request body; and a note persisted by
the create handler is owned by the session user. -/
theorem ownership_immutable (st : SrvState) (noteId : Nat) (b : NoteBody)
    (u : Nat) (upd : NoteUpdate) (m : Note) (note : Note) (st' : SrvState)
    (hs : st.session = some u)
    (hcr : createNoteHandler st b = (.ok note, st')) :
    ((applyUpdate upd m).id = m.id ∧ (applyUpdate upd m).userId = m.userId) ∧
    ((putNoteHandler st noteId b).2.db.notes.map (fun n => (n.id, n.userId)) =
      st.db.notes.map (fun n => (n.id, n.userId))) ∧
    note.userId = u := by
  refine ⟨⟨rfl, rfl⟩, ?_, ?_⟩
  · rw [putNoteHandler]
    simp only [withAuth, hs]
    by_cases hu : u = 0
    · rw [if_pos hu]
    · rw [if_neg hu]
      cases hp : parseNoteUpdate b with
      | error fs => simp [hp]
      | ok pu =>
        simp only [hp]
        rcases hq : st.db.updateNote noteId u pu with ⟨o, db2⟩
        cases o with
        | none => rfl
        | some n2 =>
          have hdb : (st.db.updateNote noteId u pu).2 = db2 := by rw [hq]
          show db2.notes.map (fun n => (n.id, n.userId)) =
            st.db.notes.map (fun n => (n.id, n.userId))
          rw [← hdb]
          exact updateNote_ids st.db noteId u pu
  · rw [createNoteHandler] at hcr
    simp only [withAuth, hs] at hcr
    by_cases hu : u = 0
    · rw [if_pos hu] at hcr; simp at hcr
    · rw [if_neg hu] at hcr
      cases hp : parseInsertNote b with
      | error fs => rw [hp] at hcr; simp at hcr
      | ok ins =>
        rw [hp] at hcr
        simp only [DB.createNote, Prod.mk.injEq, Except.ok.injEq] at hcr
        obtain ⟨h1, _⟩ := hcr
        subst h1
        rfl

/-- Witness of C10 at a concrete state, update body and created note. -/
theorem ownership_immutable_witness :
    ((applyUpdate
        { title := some "x", createdDate := none, completedDate := none,
          status := some NoteStatus.concluida } note1).id = note1.id ∧
     (applyUpdate
        { title := some "x", createdDate := none, completedDate := none,
          status := some NoteStatus.concluida } note1).userId = note1.userId) ∧
    ((putNoteHandler (SrvState.mk db1 (some 1)) 1 creBody).2.db.notes.map
        (fun n => (n.id, n.userId)) =
      (SrvState.mk db1 (some 1)).db.notes.map (fun n => (n.id, n.userId))) ∧
    (Note.mk 2 1 "Pagar contas" "2024-01-01" "2024-01-01"
        NoteStatus.aFazer).userId = 1 :=
  ownership_immutable (SrvState.mk db1 (some 1)) 1 creBody 1
    { title := some "x", createdDate := none, completedDate := none,
      status := some NoteStatus.concluida }
    note1
    (Note.mk 2 1 "Pagar contas" "2024-01-01" "2024-01-01" NoteStatus.aFazer)
    (SrvState.mk
      (DB.mk db1.users
        (db1.notes ++
          [Note.mk 2 1 "Pagar contas" "2024-01-01" "2024-01-01"
            NoteStatus.aFazer])
        db1.nextUserId 3)
      (some 1))
    rfl rfl

/-! ## C2: login succeeds exactly on matching credentials, and the two
failure causes are observationally identical -/

/-- C2: for a parseable login request carrying email `e` and password
`p`, against a store whose emails are unique, the login succeeds iff
some stored user has email `e` and a password hash matching `p`; and
whenever the credentials do not match — unknown email or wrong password
alike — the handler answers exactly 401 "Email ou senha inválidos" with
the state unchanged. -/
theorem login_iff_credentials (emailOk : String → Bool)
    (compare : String → String → Bool) (st : SrvState) (b : LoginBody)
    (e p : String)
    (he : b.email = some e) (hp : b.password = some p)
    (hef : emailOk e = true) (hpl : 1 ≤ p.length)
    (huniq : ∀ u1 ∈ st.db.users, ∀ u2 ∈ st.db.users,
      u1.email = u2.email → u1 = u2) :
    ((∃ u ∈ st.db.users, u.email = e ∧ compare p u.password = true) ↔
      ∃ pub, (loginHandler emailOk compare st b).1 = Except.ok pub) ∧
    ((¬∃ u ∈ st.db.users, u.email = e ∧ compare p u.password = true) →
      loginHandler emailOk compare st b =
        (Except.error (ApiError.unauthorized "Email ou senha inválidos"), st)) ∧
    (ApiError.unauthorized "Email ou senha inválidos").status = 401 := by
  have hparse : parseLogin emailOk b = .ok { email := e, password := p } := by
    simp [parseLogin, checkField, he, hp, hef, hpl]
  have hres : loginHandler emailOk compare st b =
      match st.db.getUserByEmail e with
      | none => (.error (.unauthorized "Email ou senha inválidos"), st)
      | some user =>
        if compare p user.password then
          (.ok (publicOf user), { st with session := some user.id })
        else (.error (.unauthorized "Email ou senha inválidos"), st) := by
    rw [loginHandler, hparse]
  cases hf : st.db.getUserByEmail e with
  | none =>
    have hnone : ∀ u ∈ st.db.users, u.email ≠ e := by
      intro u hu
      have := List.find?_eq_none.mp hf u hu
      simpa using this
    rw [hres, hf]
    refine ⟨?_, fun _ => rfl, rfl⟩
    constructor
    · rintro ⟨u, hu, hue, -⟩
      exact absurd hue (hnone u hu)
    · rintro ⟨pub, hpub⟩
      simp at hpub
  | some user =>
    have hmem : user ∈ st.db.users := List.mem_of_find?_eq_some hf
    have hemail : user.email = e := by
      have := List.find?_some hf
      simpa using this
    cases hc : compare p user.password with
    | true =>
      have hres2 : loginHandler emailOk compare st b =
          (.ok (publicOf user), { st with session := some user.id }) := by
        rw [hres, hf]; simp [hc]
      rw [hres2]
      exact ⟨iff_of_true ⟨user, hmem, hemail, hc⟩ ⟨publicOf user, rfl⟩,
        fun hno => absurd ⟨user, hmem, hemail, hc⟩ hno, rfl⟩
    | false =>
      have hres2 : loginHandler emailOk compare st b =
          (.error (.unauthorized "Email ou senha inválidos"), st) := by
        rw [hres, hf]; simp [hc]
      rw [hres2]
      refine ⟨?_, fun _ => rfl, rfl⟩
      constructor
      · rintro ⟨u, hu, hue, huc⟩
        have heq : u = user := huniq u hu user hmem (hue.trans hemail.symm)
        rw [heq] at huc
        rw [huc] at hc
        cases hc
      · rintro ⟨pub, hpub⟩
        simp at hpub

/-- Witness of C2: a store with one registered user; the matching
password logs in, so the success side of the iff is inhabited. -/
theorem login_iff_credentials_witness :
    ((∃ u ∈ (SrvState.mk db1 none).db.users, u.email = "ana@x.com" ∧
        (fun p h => h == p ++ "#h") "secret1" u.password = true) ↔
      ∃ pub, (loginHandler (fun _ => true) (fun p h => h == p ++ "#h")
        (SrvState.mk db1 none)
        (LoginBody.mk (some "ana@x.com") (some "secret1"))).1 = Except.ok pub) ∧
    ((¬∃ u ∈ (SrvState.mk db1 none).db.users, u.email = "ana@x.com" ∧
        (fun p h => h == p ++ "#h") "secret1" u.password = true) →
      loginHandler (fun _ => true) (fun p h => h == p ++ "#h")
        (SrvState.mk db1 none)
        (LoginBody.mk (some "ana@x.com") (some "secret1")) =
        (Except.error (ApiError.unauthorized "Email ou senha inválidos"),
          SrvState.mk db1 none)) ∧
    (ApiError.unauthorized "Email ou senha inválidos").status = 401 :=
  login_iff_credentials (fun _ => true) (fun p h => h == p ++ "#h")
    (SrvState.mk db1 none) (LoginBody.mk (some "ana@x.com") (some "secret1"))
    "ana@x.com" "secret1" rfl rfl rfl (by decide) (by decide)

/-! ## C4: register fails with DuplicateEmail or an itemized
ValidationError, creating nothing -/

/-- C4: a register request whose name is empty, email malformed, or
password shorter than 6 characters fails with a field-itemized
validation error and leaves the state untouched; a valid request whose
email is already registered fails with the fixed duplicate-email error,
again leaving the state untouched (no user row, no session). -/
theorem register_failures (emailOk : String → Bool) (hash : String → String)
    (st : SrvState) (b : UserBody) (n e p : String)
    (hn : b.name = some n) (he : b.email = some e) (hp : b.password = some p) :
    (¬(1 ≤ n.length ∧ emailOk e = true ∧ 6 ≤ p.length) →
      ∃ fs, registerHandler emailOk hash st b =
          (.error (.validation fs), st) ∧
        (n.length = 0 → "name" ∈ fs) ∧
        (emailOk e = false → "email" ∈ fs) ∧
        (p.length < 6 → "password" ∈ fs)) ∧
    ((1 ≤ n.length ∧ emailOk e = true ∧ 6 ≤ p.length) →
      (∃ u ∈ st.db.users, u.email = e) →
      registerHandler emailOk hash st b =
        (.error (.badRequest "Email já está em uso"), st)) := by
  constructor
  · intro hbad
    by_cases hbn : 1 ≤ n.length <;> by_cases hbe : emailOk e = true <;>
      by_cases hbp : 6 ≤ p.length
    · exact absurd ⟨hbn, hbe, hbp⟩ hbad
    · refine ⟨["password"], ?_, ?_, ?_, fun _ => by simp⟩
      · simp [registerHandler, parseInsertUser, checkField, issueOf,
          hn, he, hp, hbn, hbe, hbp]
      · intro h0; exact absurd hbn (by omega)
      · intro hfe; rw [hfe] at hbe; cases hbe
    · refine ⟨["email"], ?_, ?_, fun _ => by simp, ?_⟩
      · simp [registerHandler, parseInsertUser, checkField, issueOf,
          hn, he, hp, hbn, hbe, hbp]
      · intro h0; exact absurd hbn (by omega)
      · intro h6; exact absurd hbp (by omega)
    · refine ⟨["email", "password"], ?_, ?_, fun _ => by simp, fun _ => by simp⟩
      · simp [registerHandler, parseInsertUser, checkField, issueOf,
          hn, he, hp, hbn, hbe, hbp]
      · intro h0; exact absurd hbn (by omega)
    · refine ⟨["name"], ?_, fun _ => by simp, ?_, ?_⟩
      · simp [registerHandler, parseInsertUser, checkField, issueOf,
          hn, he, hp, hbn, hbe, hbp]
      · intro hfe; rw [hfe] at hbe; cases hbe
      · intro h6; exact absurd hbp (by omega)
    · refine ⟨["name", "password"], ?_, fun _ => by simp, ?_, fun _ => by simp⟩
      · simp [registerHandler, parseInsertUser, checkField, issueOf,
          hn, he, hp, hbn, hbe, hbp]
      · intro hfe; rw [hfe] at hbe; cases hbe
    · refine ⟨["name", "email"], ?_, fun _ => by simp, fun _ => by simp, ?_⟩
      · simp [registerHandler, parseInsertUser, checkField, issueOf,
          hn, he, hp, hbn, hbe, hbp]
      · intro h6; exact absurd hbp (by omega)
    · refine ⟨["name", "email", "password"], ?_, fun _ => by simp,
        fun _ => by simp, fun _ => by simp⟩
      simp [registerHandler, parseInsertUser, checkField, issueOf,
        hn, he, hp, hbn, hbe, hbp]
  · rintro ⟨h1, h2, h3⟩ ⟨u, hu, hue⟩
    have hparse : parseInsertUser emailOk b =
        .ok { name := n, email := e, password := p } := by
      simp [parseInsertUser, checkField, hn, he, hp, h1, h2, h3]
    cases hf : st.db.getUserByEmail e with
    | none =>
      have := List.find?_eq_none.mp hf u hu
      simp [hue] at this
    | some u2 =>
      simp [registerHandler, hparse, DB.getUserByEmail] at hf ⊢
      simp [hf]

/-- Witness of C4: an all-invalid body is rejected field by field, and a
valid body reusing the registered email is rejected as duplicate. -/
theorem register_failures_witness :
    (¬(1 ≤ "".length ∧ (fun s : String => s == "ana@x.com") "bad" = true ∧
        6 ≤ "123".length) →
      ∃ fs, registerHandler (fun s : String => s == "ana@x.com")
          (fun p => p ++ "#h") (SrvState.mk db1 none)
          (UserBody.mk (some "") (some "bad") (some "123")) =
          (.error (.validation fs), SrvState.mk db1 none) ∧
        ("".length = 0 → "name" ∈ fs) ∧
        ((fun s : String => s == "ana@x.com") "bad" = false → "email" ∈ fs) ∧
        ("123".length < 6 → "password" ∈ fs)) ∧
    ((1 ≤ "".length ∧ (fun s : String => s == "ana@x.com") "bad" = true ∧
        6 ≤ "123".length) →
      (∃ u ∈ (SrvState.mk db1 none).db.users, u.email = "bad") →
      registerHandler (fun s : String => s == "ana@x.com")
        (fun p => p ++ "#h") (SrvState.mk db1 none)
        (UserBody.mk (some "") (some "bad") (some "123")) =
        (.error (.badRequest "Email já está em uso"), SrvState.mk db1 none)) :=
  register_failures (fun s : String => s == "ana@x.com") (fun p => p ++ "#h")
    (SrvState.mk db1 none) (UserBody.mk (some "") (some "bad") (some "123"))
    "" "bad" "123" rfl rfl rfl

/-! ## C6: Create then List round-trip -/

/-- C6: creating a note from a valid body and then listing the same
user's notes yields a note carrying exactly the submitted title, dates
and status, plus the id assigned at creation. -/
theorem create_then_list_roundTrip (st : SrvState) (b : NoteBody) (u : Nat)
    (ins : InsertNote)
    (hs : st.session = some u) (hu : u ≠ 0)
    (hb : parseInsertNote b = .ok ins) :
    ∃ note st',
      createNoteHandler st b = (.ok note, st') ∧
      note.title = ins.title ∧ note.createdDate = ins.createdDate ∧
      note.completedDate = ins.completedDate ∧ note.status = ins.status ∧
      note.userId = u ∧ note.id = st.db.nextNoteId ∧
      ∃ l, getNotesHandler st' = (.ok l, st') ∧ note ∈ l := by
  refine ⟨{ id := st.db.nextNoteId, userId := u, title := ins.title,
            createdDate := ins.createdDate, completedDate := ins.completedDate,
            status := ins.status },
    { db := { users := st.db.users,
              notes := st.db.notes ++
                [{ id := st.db.nextNoteId, userId := u, title := ins.title,
                   createdDate := ins.createdDate,
                   completedDate := ins.completedDate, status := ins.status }],
              nextUserId := st.db.nextUserId,
              nextNoteId := st.db.nextNoteId + 1 },
      session := some u }, ?_, rfl, rfl, rfl, rfl, rfl, rfl, ?_⟩
  · rw [createNoteHandler]
    simp only [withAuth, hs]
    rw [if_neg hu, hb]
    rfl
  · refine ⟨(st.db.notes ++
        [Note.mk st.db.nextNoteId u ins.title ins.createdDate
          ins.completedDate ins.status]).filter (fun n => n.userId == u),
      ?_, ?_⟩
    · rw [getNotesHandler]
      simp only [withAuth]
      rw [if_neg hu]
      rfl
    · rw [List.mem_filter]
      exact ⟨List.mem_append_right _ (List.mem_singleton_self _), by simp⟩

/-- Witness of C6: creating "Pagar contas" for user 1 and listing. -/
theorem create_then_list_roundTrip_witness :
    ∃ note st',
      createNoteHandler (SrvState.mk db1 (some 1)) creBody =
        (.ok note, st') ∧
      note.title = "Pagar contas" ∧ note.createdDate = "2024-01-01" ∧
      note.completedDate = "2024-01-01" ∧ note.status = NoteStatus.aFazer ∧
      note.userId = 1 ∧ note.id = (SrvState.mk db1 (some 1)).db.nextNoteId ∧
      ∃ l, getNotesHandler st' = (.ok l, st') ∧ note ∈ l :=
  create_then_list_roundTrip (SrvState.mk db1 (some 1)) creBody 1
    (InsertNote.mk "Pagar contas" "2024-01-01" "2024-01-01" NoteStatus.aFazer)
    rfl (by decide) rfl

/-! ## C7: MarkCompleted is idempotent in effect -/

/-- One MarkCompleted call on an owned note: it answers with the note
set to done and the given completion date, keeps the session, stores
that row, and keeps it the unique row with this id. -/
theorem markCompleted_step (st : SrvState) (m : Note) (u : Nat) (d : String)
    (hs : st.session = some u) (hu : u ≠ 0) (hm : m ∈ st.db.notes)
    (hown : m.userId = u)
    (huniq : ∀ x ∈ st.db.notes, x.id = m.id → x = m)
    (hd : 1 ≤ d.length) :
    ∃ st', markCompleted st m.id d =
        (.ok { m with completedDate := d, status := .concluida }, st') ∧
      st'.session = some u ∧
      { m with completedDate := d, status := NoteStatus.concluida } ∈
        st'.db.notes ∧
      (∀ x ∈ st'.db.notes, x.id = m.id →
        x = { m with completedDate := d, status := .concluida }) := by
  have hps : parseStatus "Concluída" = some NoteStatus.concluida := rfl
  have hupd : parseNoteUpdate (markCompletedBody d) =
      .ok { title := none, createdDate := none, completedDate := some d,
            status := some NoteStatus.concluida } := by
    simp [parseNoteUpdate, markCompletedBody, checkOptField, checkOptStatus,
      hps, hd]
  have hmatch : noteMatches m.id u m = true := noteMatches_iff.mpr ⟨rfl, hown⟩
  have hfind : st.db.notes.find? (noteMatches m.id u) = some m :=
    find?_eq_some_unique hm hmatch
      (fun x hx hpx => huniq x hx (noteMatches_iff.mp hpx).1)
  have h1 : (st.db.updateNote m.id u
      { title := none, createdDate := none, completedDate := some d,
        status := some NoteStatus.concluida }).1 =
      some { m with completedDate := d, status := .concluida } := by
    simp [DB.updateNote, hfind, applyUpdate]
  rcases hq : st.db.updateNote m.id u
      { title := none, createdDate := none, completedDate := some d,
        status := some NoteStatus.concluida } with ⟨o, db2⟩
  have ho : o = some { m with completedDate := d, status := .concluida } := by
    have hfst := congrArg Prod.fst hq
    rw [h1] at hfst
    exact hfst.symm
  subst ho
  have hdb : (st.db.updateNote m.id u
      { title := none, createdDate := none, completedDate := some d,
        status := some NoteStatus.concluida }).2 = db2 := congrArg Prod.snd hq
  refine ⟨{ st with db := db2 }, ?_, hs, ?_, ?_⟩
  · rw [markCompleted, putNoteHandler]
    simp only [withAuth, hs]
    rw [if_neg hu]
    simp only [hupd, hq]
  · rw [← hdb]
    show _ ∈ st.db.notes.map _
    exact List.mem_map.mpr ⟨m, hm, by rw [if_pos hmatch]; rfl⟩
  · intro x hx hxid
    rw [show ({ st with db := db2 } : SrvState).db.notes = db2.notes from rfl,
      ← hdb] at hx
    obtain ⟨y, hy, hxy⟩ := List.mem_map.mp hx
    by_cases hmy : noteMatches m.id u y = true
    · have hym : y = m := huniq y hy (noteMatches_iff.mp hmy).1
      subst hym
      rw [if_pos hmy] at hxy
      rw [← hxy]
      rfl
    · rw [if_neg hmy] at hxy
      subst hxy
      have hym : y = m := huniq y hy hxid
      subst hym
      exact absurd hmatch hmy

/-- C7: two MarkCompleted calls on an owned note, on dates `d1` then
`d2`, each succeed with status done; after the first the completion
date is `d1`, after the second it is `d2` — the date of the last call. -/
theorem markCompleted_idempotent (st : SrvState) (n : Note) (u : Nat)
    (d1 d2 : String)
    (hs : st.session = some u) (hu : u ≠ 0)
    (hn : n ∈ st.db.notes) (hown : n.userId = u)
    (huniq : ∀ x ∈ st.db.notes, x.id = n.id → x = n)
    (hd1 : 1 ≤ d1.length) (hd2 : 1 ≤ d2.length) :
    ∃ n1 st1 n2 st2,
      markCompleted st n.id d1 = (.ok n1, st1) ∧
      n1.status = NoteStatus.concluida ∧ n1.completedDate = d1 ∧
      markCompleted st1 n.id d2 = (.ok n2, st2) ∧
      n2.status = NoteStatus.concluida ∧ n2.completedDate = d2 := by
  obtain ⟨st1, h1, hs1, hm1, hU1⟩ :=
    markCompleted_step st n u d1 hs hu hn hown huniq hd1
  obtain ⟨st2, h2, -, -, -⟩ :=
    markCompleted_step st1 { n with completedDate := d1, status := .concluida }
      u d2 hs1 hu hm1 hown hU1 hd2
  exact ⟨{ n with completedDate := d1, status := .concluida }, st1,
    { n with completedDate := d2, status := .concluida }, st2,
    h1, rfl, rfl, h2, rfl, rfl⟩

/-- Witness of C7: note 1 of user 1 marked completed twice. -/
theorem markCompleted_idempotent_witness :
    ∃ n1 st1 n2 st2,
      markCompleted (SrvState.mk db1 (some 1)) note1.id "2024-02-02" =
        (.ok n1, st1) ∧
      n1.status = NoteStatus.concluida ∧ n1.completedDate = "2024-02-02" ∧
      markCompleted st1 note1.id "2024-03-03" = (.ok n2, st2) ∧
      n2.status = NoteStatus.concluida ∧ n2.completedDate = "2024-03-03" :=
  markCompleted_idempotent (SrvState.mk db1 (some 1)) note1 1
    "2024-02-02" "2024-03-03" rfl (by decide) (by decide) rfl (by decide)
    (by decide) (by decide)

/-! ## Parse inversion lemmas -/

theorem one_le_length_iff (s : String) : 1 ≤ s.length ↔ s ≠ "" := by
  cases s with
  | mk data =>
    cases data with
    | nil => simp [String.length]
    | cons c cs =>
      simp only [String.length, List.length_cons]
      constructor
      · intro _ h
        have h2 : c :: cs = ([] : List Char) := congrArg String.data h
        cases h2
      · intro _
        omega

theorem checkField_ok {f : String} {ok : String → Bool} {x : Option String}
    {v : String} (h : checkField f ok x = .ok v) :
    x = some v ∧ ok v = true := by
  cases x with
  | none => exact absurd h (by simp [checkField])
  | some w =>
    simp only [checkField] at h
    by_cases hw : ok w = true
    · rw [if_pos hw] at h
      injection h with h2
      subst h2
      exact ⟨rfl, hw⟩
    · rw [if_neg hw] at h
      cases h

theorem checkStatus_ok {x : Option String} {v : NoteStatus}
    (h : checkStatus x = .ok v) :
    ∃ s, x = some s ∧ parseStatus s = some v := by
  cases x with
  | none => exact absurd h (by simp [checkStatus])
  | some s =>
    cases hp : parseStatus s with
    | none => simp [checkStatus, hp] at h
    | some v2 =>
      simp only [checkStatus, hp, Except.ok.injEq] at h
      subst h
      exact ⟨s, rfl, hp⟩

theorem parseStatus_some {s : String} {v : NoteStatus}
    (h : parseStatus s = some v) : s = "A Fazer" ∨ s = "Concluída" := by
  unfold parseStatus at h
  by_cases h1 : s = "A Fazer"
  · exact Or.inl h1
  · rw [if_neg h1] at h
    by_cases h2 : s = "Concluída"
    · exact Or.inr h2
    · rw [if_neg h2] at h
      cases h

theorem parseInsertUser_ok {emailOk : String → Bool} {b : UserBody}
    {iu : InsertUser} (h : parseInsertUser emailOk b = .ok iu) :
    b.name = some iu.name ∧ b.email = some iu.email ∧
    b.password = some iu.password := by
  simp only [parseInsertUser] at h
  rcases hrn : checkField "name" (fun n => n.length ≥ 1) b.name with fn | vn <;>
    rcases hre : checkField "email" emailOk b.email with fe | ve <;>
      rcases hrp : checkField "password" (fun p => p.length ≥ 6) b.password
        with fp | vp <;>
        rw [hrn, hre, hrp] at h <;> simp at h
  subst h
  exact ⟨(checkField_ok hrn).1, (checkField_ok hre).1, (checkField_ok hrp).1⟩

theorem parseInsertNote_ok {b : NoteBody} {ins : InsertNote}
    (h : parseInsertNote b = .ok ins) :
    b.title = some ins.title ∧ 1 ≤ ins.title.length ∧
    b.createdDate = some ins.createdDate ∧
    b.completedDate = some ins.completedDate ∧
    1 ≤ ins.completedDate.length ∧
    ∃ s, b.status = some s ∧ parseStatus s = some ins.status := by
  simp only [parseInsertNote] at h
  rcases hrt : checkField "title" (fun t => t.length ≥ 1) b.title
      with ft | vt <;>
    rcases hrc : checkField "createdDate" (fun _ => true) b.createdDate
        with fc | vc <;>
      rcases hrd : checkField "completedDate" (fun d => d.length ≥ 1)
          b.completedDate with fd | vd <;>
        rcases hrs : checkStatus b.status with fs | vs <;>
          rw [hrt, hrc, hrd, hrs] at h <;> simp at h
  subst h
  obtain ⟨hbt, hvt⟩ := checkField_ok hrt
  obtain ⟨hbd, hvd⟩ := checkField_ok hrd
  obtain ⟨s, hbs, hps⟩ := checkStatus_ok hrs
  exact ⟨hbt, by simpa using hvt, (checkField_ok hrc).1, hbd,
    by simpa using hvd, s, hbs, hps⟩

/-! ## C9: the plaintext password never persists past hashing -/

/-- C9: a successful register stores exactly the hash of the submitted
password in the new user row, answers with only the public fields id,
name, email and opens a session; successful login and whoami responses
are likewise the public projection of a stored user — no password field
ever appears in a success response. -/
theorem password_never_plaintext (emailOk : String → Bool)
    (hash : String → String) (compare : String → String → Bool)
    (st : SrvState) (b : UserBody) (lb : LoginBody) (n e p : String)
    (pub1 pub2 pub3 : PublicUser) (st1 st2 st3 : SrvState)
    (hn : b.name = some n) (he : b.email = some e) (hp : b.password = some p)
    (hreg : registerHandler emailOk hash st b = (.ok pub1, st1))
    (hlog : loginHandler emailOk compare st lb = (.ok pub2, st2))
    (hme : meHandler st = (.ok pub3, st3)) :
    (∃ user : User, st1.db.users = st.db.users ++ [user] ∧
      user.password = hash p ∧
      pub1 = { id := user.id, name := n, email := e } ∧
      st1.session = some user.id) ∧
    (∃ user ∈ st.db.users, pub2 = publicOf user) ∧
    (∃ user ∈ st.db.users, pub3 = publicOf user) := by
  refine ⟨?_, ?_, ?_⟩
  · rw [registerHandler] at hreg
    cases hpr : parseInsertUser emailOk b with
    | error fs => simp only [hpr] at hreg; simp at hreg
    | ok iu =>
      obtain ⟨hbn, hbe, hbp⟩ := parseInsertUser_ok hpr
      rw [hn] at hbn
      rw [he] at hbe
      rw [hp] at hbp
      injection hbn with hbn
      injection hbe with hbe
      injection hbp with hbp
      simp only [hpr] at hreg
      cases hgf : st.db.getUserByEmail iu.email with
      | some u2 => simp only [hgf] at hreg; simp at hreg
      | none =>
        simp only [hgf] at hreg
        simp only [DB.createUser, publicOf, Prod.mk.injEq,
          Except.ok.injEq] at hreg
        obtain ⟨hpub, hst⟩ := hreg
        refine ⟨User.mk st.db.nextUserId iu.name iu.email (hash iu.password),
          ?_, ?_, ?_, ?_⟩
        · rw [← hst]
        · rw [hbp]
        · rw [← hpub, hbn, hbe]
        · rw [← hst]
  · rw [loginHandler] at hlog
    cases hpl2 : parseLogin emailOk lb with
    | error fs => simp only [hpl2] at hlog; simp at hlog
    | ok l =>
      simp only [hpl2] at hlog
      cases hgf : st.db.getUserByEmail l.email with
      | none => simp only [hgf] at hlog; simp at hlog
      | some user =>
        simp only [hgf] at hlog
        by_cases hc : compare l.password user.password = true
        · rw [if_pos hc] at hlog
          simp only [Prod.mk.injEq, Except.ok.injEq] at hlog
          exact ⟨user, List.mem_of_find?_eq_some hgf, hlog.1.symm⟩
        · rw [if_neg hc] at hlog
          simp at hlog
  · cases hss : st.session with
    | none =>
      rw [meHandler] at hme
      simp only [withAuth, hss] at hme
      simp at hme
    | some uid =>
      rw [meHandler] at hme
      simp only [withAuth, hss] at hme
      by_cases hz : uid = 0
      · rw [if_pos hz] at hme; simp at hme
      · rw [if_neg hz] at hme
        cases hgu : st.db.getUser uid with
        | none => rw [hgu] at hme; simp at hme
        | some user =>
          rw [hgu] at hme
          simp only [Prod.mk.injEq, Except.ok.injEq] at hme
          exact ⟨user, List.mem_of_find?_eq_some hgu, hme.1.symm⟩

/-- Witness of C9: a fresh registration, a login as Ana and a whoami,
all succeeding against the one-user store. -/
theorem password_never_plaintext_witness :
    (∃ user : User,
      (SrvState.mk
        (DB.mk (db1.users ++ [User.mk 2 "Bia" "bia@x.com" "secret2#h"])
          db1.notes 3 2) (some 2)).db.users =
        (SrvState.mk db1 (some 1)).db.users ++ [user] ∧
      user.password = (fun p => p ++ "#h") "secret2" ∧
      (PublicUser.mk 2 "Bia" "bia@x.com" : PublicUser) =
        { id := user.id, name := "Bia", email := "bia@x.com" } ∧
      (SrvState.mk
        (DB.mk (db1.users ++ [User.mk 2 "Bia" "bia@x.com" "secret2#h"])
          db1.notes 3 2) (some 2)).session = some user.id) ∧
    (∃ user ∈ (SrvState.mk db1 (some 1)).db.users,
      (PublicUser.mk 1 "Ana" "ana@x.com" : PublicUser) = publicOf user) ∧
    (∃ user ∈ (SrvState.mk db1 (some 1)).db.users,
      (PublicUser.mk 1 "Ana" "ana@x.com" : PublicUser) = publicOf user) :=
  password_never_plaintext (fun _ => true) (fun p => p ++ "#h")
    (fun p h => h == p ++ "#h")
    (SrvState.mk db1 (some 1))
    (UserBody.mk (some "Bia") (some "bia@x.com") (some "secret2"))
    (LoginBody.mk (some "ana@x.com") (some "secret1"))
    "Bia" "bia@x.com" "secret2"
    (PublicUser.mk 2 "Bia" "bia@x.com")
    (PublicUser.mk 1 "Ana" "ana@x.com")
    (PublicUser.mk 1 "Ana" "ana@x.com")
    (SrvState.mk
      (DB.mk (db1.users ++ [User.mk 2 "Bia" "bia@x.com" "secret2#h"])
        db1.notes 3 2) (some 2))
    (SrvState.mk db1 (some 1))
    (SrvState.mk db1 (some 1))
    rfl rfl rfl rfl rfl rfl

/-! ## C8: what Create actually validates -/

/-- Counterexample to C8 as stated: both submitted dates pass the zod
validation although neither is a well-formed calendar date, and the
create request then fails at the database insert, which the handler
surfaces as the 500 internal error "Erro ao criar anotação" with the
state unchanged — not as the ValidationError the claim asserts.  The
database's date acceptance is instantiated with `isCalendarDate`; the
handler evaluates it only at the two strings below, which the Postgres
date parser rejects just the same. -/
theorem createNote_malformedDate_answers500 :
    isCalendarDate "not-a-date" = false ∧
    isCalendarDate "1234-99-99" = false ∧
    (∃ ins, parseInsertNote badDateBody = Except.ok ins) ∧
    createNoteHandlerPg isCalendarDate (SrvState.mk db1 (some 1))
        badDateBody =
      (.error (.internal "Erro ao criar anotação"), SrvState.mk db1 (some 1)) ∧
    (ApiError.internal "Erro ao criar anotação").status = 500 :=
  ⟨by decide, by decide,
    ⟨InsertNote.mk "Pagar contas" "not-a-date" "1234-99-99" NoteStatus.aFazer,
      rfl⟩,
    rfl, rfl⟩

/-- C8 amended: the schema layer checks only that the title is present
and non-empty, the status is one of the two enum values, the
createdDate is present and the completedDate is present and non-empty;
inputs failing these checks fail with a field-itemized ValidationError
and nothing is persisted.  Calendar-date well-formedness is not checked
at validation: a request passing the schema is persisted exactly when
the database accepts both date strings, and otherwise fails with the
500 InternalError of the handler's catch block, again persisting
nothing. -/
theorem createNote_validation (pgDateOk : String → Bool) (st : SrvState)
    (b : NoteBody) (u : Nat) (ins : InsertNote)
    (hs : st.session = some u) (hu : u ≠ 0) :
    ((¬((∃ t, b.title = some t ∧ t ≠ "") ∧
      (∃ c, b.createdDate = some c) ∧
      (∃ d, b.completedDate = some d ∧ d ≠ "") ∧
      (∃ s, b.status = some s ∧ (s = "A Fazer" ∨ s = "Concluída")))) →
      ∃ fs, createNoteHandlerPg pgDateOk st b =
        (.error (.validation fs), st)) ∧
    (parseInsertNote b = .ok ins → pgDateOk ins.createdDate = true →
      pgDateOk ins.completedDate = true →
      ∃ note st2, createNoteHandlerPg pgDateOk st b = (.ok note, st2) ∧
        st2.db.notes = st.db.notes ++ [note] ∧ note.title = ins.title ∧
        note.createdDate = ins.createdDate ∧
        note.completedDate = ins.completedDate ∧
        note.status = ins.status) ∧
    (parseInsertNote b = .ok ins →
      ¬(pgDateOk ins.createdDate = true ∧ pgDateOk ins.completedDate = true) →
      createNoteHandlerPg pgDateOk st b =
        (.error (.internal "Erro ao criar anotação"), st)) ∧
    (∀ note st2, createNoteHandlerPg pgDateOk st b = (.ok note, st2) →
      ∃ ins2, parseInsertNote b = .ok ins2 ∧
        pgDateOk ins2.createdDate = true ∧
        pgDateOk ins2.completedDate = true) := by
  refine ⟨?_, ?_, ?_, ?_⟩
  · intro hbad
    cases hpr : parseInsertNote b with
    | ok ins2 =>
      exfalso
      apply hbad
      obtain ⟨h1, h2, h3, h4, h5, s, h6, h7⟩ := parseInsertNote_ok hpr
      exact ⟨⟨ins2.title, h1, (one_le_length_iff _).mp h2⟩,
        ⟨ins2.createdDate, h3⟩,
        ⟨ins2.completedDate, h4, (one_le_length_iff _).mp h5⟩,
        ⟨s, h6, parseStatus_some h7⟩⟩
    | error fs =>
      refine ⟨fs, ?_⟩
      rw [createNoteHandlerPg]
      simp only [withAuth, hs]
      rw [if_neg hu, hpr]
  · intro hb hc hd
    refine ⟨Note.mk st.db.nextNoteId u ins.title ins.createdDate
        ins.completedDate ins.status,
      SrvState.mk
        (DB.mk st.db.users
          (st.db.notes ++ [Note.mk st.db.nextNoteId u ins.title
            ins.createdDate ins.completedDate ins.status])
          st.db.nextUserId (st.db.nextNoteId + 1))
        (some u), ?_, rfl, rfl, rfl, rfl, rfl⟩
    rw [createNoteHandlerPg]
    simp only [withAuth, hs]
    rw [if_neg hu]
    simp only [hb]
    rw [if_pos (Bool.and_eq_true _ _ |>.mpr ⟨hc, hd⟩)]
    rfl
  · intro hb hnd
    rw [createNoteHandlerPg]
    simp only [withAuth, hs]
    rw [if_neg hu]
    simp only [hb]
    rw [if_neg (fun h => hnd ((Bool.and_eq_true _ _).mp h))]
  · intro note st2 hok
    rw [createNoteHandlerPg] at hok
    simp only [withAuth, hs] at hok
    rw [if_neg hu] at hok
    cases hpr : parseInsertNote b with
    | error fs => simp only [hpr] at hok; simp at hok
    | ok ins2 =>
      simp only [hpr] at hok
      by_cases hcd : (pgDateOk ins2.createdDate &&
          pgDateOk ins2.completedDate) = true
      · obtain ⟨h1, h2⟩ := (Bool.and_eq_true _ _).mp hcd
        exact ⟨ins2, rfl, h1, h2⟩
      · rw [if_neg hcd] at hok
        simp at hok

/-- Witness of the amended C8 at a concrete session and a valid body:
the schema passes, both dates are accepted, and the note is persisted. -/
theorem createNote_validation_witness :
    ((¬((∃ t, creBody.title = some t ∧ t ≠ "") ∧
      (∃ c, creBody.createdDate = some c) ∧
      (∃ d, creBody.completedDate = some d ∧ d ≠ "") ∧
      (∃ s, creBody.status = some s ∧ (s = "A Fazer" ∨ s = "Concluída")))) →
      ∃ fs, createNoteHandlerPg isCalendarDate (SrvState.mk db1 (some 1))
          creBody =
        (.error (.validation fs), SrvState.mk db1 (some 1))) ∧
    (parseInsertNote creBody =
        .ok (InsertNote.mk "Pagar contas" "2024-01-01" "2024-01-01"
          NoteStatus.aFazer) →
      isCalendarDate (InsertNote.mk "Pagar contas" "2024-01-01" "2024-01-01"
          NoteStatus.aFazer).createdDate = true →
      isCalendarDate (InsertNote.mk "Pagar contas" "2024-01-01" "2024-01-01"
          NoteStatus.aFazer).completedDate = true →
      ∃ note st2, createNoteHandlerPg isCalendarDate
          (SrvState.mk db1 (some 1)) creBody = (.ok note, st2) ∧
        st2.db.notes = (SrvState.mk db1 (some 1)).db.notes ++ [note] ∧
        note.title = (InsertNote.mk "Pagar contas" "2024-01-01" "2024-01-01"
          NoteStatus.aFazer).title ∧
        note.createdDate = (InsertNote.mk "Pagar contas" "2024-01-01"
          "2024-01-01" NoteStatus.aFazer).createdDate ∧
        note.completedDate = (InsertNote.mk "Pagar contas" "2024-01-01"
          "2024-01-01" NoteStatus.aFazer).completedDate ∧
        note.status = (InsertNote.mk "Pagar contas" "2024-01-01" "2024-01-01"
          NoteStatus.aFazer).status) ∧
    (parseInsertNote creBody =
        .ok (InsertNote.mk "Pagar contas" "2024-01-01" "2024-01-01"
          NoteStatus.aFazer) →
      ¬(isCalendarDate (InsertNote.mk "Pagar contas" "2024-01-01" "2024-01-01"
          NoteStatus.aFazer).createdDate = true ∧
        isCalendarDate (InsertNote.mk "Pagar contas" "2024-01-01" "2024-01-01"
          NoteStatus.aFazer).completedDate = true) →
      createNoteHandlerPg isCalendarDate (SrvState.mk db1 (some 1)) creBody =
        (.error (.internal "Erro ao criar anotação"),
          SrvState.mk db1 (some 1))) ∧
    (∀ note st2, createNoteHandlerPg isCalendarDate (SrvState.mk db1 (some 1))
        creBody = (.ok note, st2) →
      ∃ ins2, parseInsertNote creBody = .ok ins2 ∧
        isCalendarDate ins2.createdDate = true ∧
        isCalendarDate ins2.completedDate = true) :=
  createNote_validation isCalendarDate (SrvState.mk db1 (some 1)) creBody 1
    (InsertNote.mk "Pagar contas" "2024-01-01" "2024-01-01" NoteStatus.aFazer)
    rfl (by decide)

end Anota
